import Mathlib

/-!
# Verification of the country-data flattening utility

Shallow embedding of the repository's utility module (`countryUtils.js`):
`flattenCountryFields`, `formatLanguages`, `formatNumber` and
`flattenCountriesArray`, together with proofs of the specified properties.

JavaScript dynamic values are embedded as the inductive `JSValue`; machine
floats only ever occur here as integers (populations, areas) plus the `NaN`
special case, so numbers are modelled as `Int` with a separate `nan`
constructor. Objects are modelled as ordered association lists, matching the
insertion-order iteration of (non-numeric-keyed) JavaScript objects.
-/

/-- A JavaScript runtime value, as far as this module can observe it:
`undefined`, `null`, booleans, (integral) numbers, `NaN`, strings, arrays
and plain objects (ordered key/value lists). -/
inductive JSValue where
  | undefined : JSValue
  | null : JSValue
  | bool : Bool → JSValue
  | num : Int → JSValue
  | nan : JSValue
  | str : String → JSValue
  | arr : List JSValue → JSValue
  | obj : List (String × JSValue) → JSValue

namespace JSValue

/-- JavaScript truthiness: `undefined`, `null`, `false`, `0`, `NaN` and `""`
are falsy; every other value (including every array and object) is truthy. -/
def truthy : JSValue → Bool
  | .undefined => false
  | .null => false
  | .bool b => b
  | .num n => n != 0
  | .nan => false
  | .str s => s != ""
  | .arr _ => true
  | .obj _ => true

/-- The JavaScript `typeof` operator (note `typeof null` is `"object"`, and
arrays are `"object"` too). -/
def typeof : JSValue → String
  | .undefined => "undefined"
  | .null => "object"
  | .bool _ => "boolean"
  | .num _ => "number"
  | .nan => "number"
  | .str _ => "string"
  | .arr _ => "object"
  | .obj _ => "object"

/-- The numeric value of a decimal digit character, `none` otherwise. -/
def charDigit? (c : Char) : Option Nat :=
  if c.isDigit then some (c.toNat - 48) else none

/-- Accumulate a decimal value over a character list; `none` on the first
non-digit. -/
def digitsAcc : Nat → List Char → Option Nat
  | acc, [] => some acc
  | acc, c :: cs =>
    match charDigit? c with
    | some d => digitsAcc (acc * 10 + d) cs
    | none => none

/-- Interpret a property key as a canonical JavaScript array index: a
non-empty all-digit string without a leading zero (except `"0"` itself). -/
def keyToIndex? (k : String) : Option Nat :=
  match k.toList with
  | [] => none
  | ['0'] => some 0
  | '0' :: _ :: _ => none
  | cs => digitsAcc 0 cs

/-- Property access `v[k]` on a non-nullish value: association-list lookup on
objects; index/`length` access on arrays; index/`length` access on strings
(a string index yields a one-character string); `undefined` on primitives.
Access on `undefined`/`null` throws in JavaScript — the throwing behaviour is
modelled separately by `getPropE`; here it returns `undefined`, and every
use below is either guarded by `?.` or by the callers' structure checks. -/
def getProp : JSValue → String → JSValue
  | .obj fields, k =>
    match fields.find? (fun p => p.1 == k) with
    | some p => p.2
    | none => .undefined
  | .arr xs, k =>
    if k == "length" then .num xs.length
    else
      match keyToIndex? k with
      | some i => xs.getD i .undefined
      | none => .undefined
  | .str s, k =>
    if k == "length" then .num s.length
    else
      match keyToIndex? k with
      | some i =>
        match s.toList.get? i with
        | some c => .str c.toString
        | none => .undefined
      | none => .undefined
  | _, _ => .undefined

/-- The optional-chaining operator `v?.…`: if `v` is `undefined` or `null`
the whole chain is `undefined`; otherwise the continuation runs on `v`. -/
def optChain (v : JSValue) (f : JSValue → JSValue) : JSValue :=
  match v with
  | .undefined => .undefined
  | .null => .undefined
  | v => f v

/-- JavaScript `a || b`: the left operand if truthy, otherwise the right. -/
def jsOr (a b : JSValue) : JSValue :=
  if truthy a then a else b

/-- The call `Object.values(v)` for the values this module can reach it with: an
object's values in insertion order, an array's elements, a string's
characters; `[]` on other primitives (as in JavaScript). `undefined`/`null`
would throw; both call sites guard against them. -/
def objectValues : JSValue → List JSValue
  | .obj fields => fields.map Prod.snd
  | .arr xs => xs
  | .str s => s.toList.map (fun c => .str c.toString)
  | _ => []

/-- Insert a `,` before every third digit, working over the reversed digit
list of a number (helper for the default-locale `toLocaleString` grouping). -/
def groupRev : Nat → List Char → List Char
  | _, [] => []
  | i, c :: cs =>
    (if i ≠ 0 ∧ i % 3 = 0 then [',', c] else [c]) ++ groupRev (i + 1) cs

/-- Default-locale thousands grouping of a natural number's decimal digits,
e.g. `1234567 ↦ "1,234,567"`. -/
def natGrouped (m : Nat) : String :=
  String.mk ((groupRev 0 (toString m).toList.reverse).reverse)

/-- The method `Number.prototype.toLocaleString()` in the default locale, on the
integral numbers this module handles: sign followed by the grouped digits. -/
def intToLocaleString (n : Int) : String :=
  if n < 0 then "-" ++ natGrouped n.natAbs else natGrouped n.natAbs

mutual

/-- JavaScript `String(v)` conversion for the values of this model: an
array stringifies as its elements joined with `","` (`null`/`undefined`
elements becoming empty), a plain object as `"[object Object]"`. -/
def jsValueToString (v : JSValue) : String :=
  match v with
  | .undefined => "undefined"
  | .null => "null"
  | .bool b => if b then "true" else "false"
  | .num n => toString n
  | .nan => "NaN"
  | .str s => s
  | .arr xs => jsJoinList "," xs
  | .obj _ => "[object Object]"
termination_by structural v

/-- The method `Array.prototype.join(sep)` over the model's value lists; a `null` or
`undefined` element renders as the empty string, anything else as its
`String(·)` conversion. -/
def jsJoinList (sep : String) (l : List JSValue) : String :=
  match l with
  | [] => ""
  | [.undefined] => ""
  | [.null] => ""
  | [x] => jsValueToString x
  | .undefined :: y :: xs => "" ++ sep ++ jsJoinList sep (y :: xs)
  | .null :: y :: xs => "" ++ sep ++ jsJoinList sep (y :: xs)
  | x :: y :: xs => jsValueToString x ++ sep ++ jsJoinList sep (y :: xs)
termination_by structural l

end

/-- How `Array.prototype.join` renders one element: `null` and `undefined`
become the empty string, anything else its `String(·)` conversion (factored
out of `jsJoinList` for statements about it). -/
def jsJoinElem (v : JSValue) : String :=
  match v with
  | .undefined => ""
  | .null => ""
  | v => jsValueToString v

/-- The call `v.toLocaleString()` on a non-nullish value: numbers group their digits
(default locale), strings and booleans render as themselves, `NaN` as
`"NaN"`; the array/object cases are unreachable from this module's guarded
call site and rendered by their `String(·)` conversion. -/
def jsToLocaleString : JSValue → String
  | .num n => intToLocaleString n
  | .nan => "NaN"
  | v => jsValueToString v

/-- The strict comparison `v === 0` (only the number `0` compares equal). -/
def strictEqZero : JSValue → Bool
  | .num n => n == 0
  | _ => false

end JSValue

open JSValue

/-- Function `formatLanguages(languages)` from `countryUtils.js`:
`if (!languages || typeof languages !== 'object') return 'N/A';`
then join `Object.values(languages)` with `", "`, with `'N/A'` for an
empty value list. -/
def formatLanguages (languages : JSValue) : String :=
  if !(truthy languages) || (typeof languages != "object") then "N/A"
  else
    let languageList := objectValues languages
    if languageList.length > 0 then jsJoinList ", " languageList else "N/A"

/-- Function `formatNumber(num)` from `countryUtils.js`:
`if (!num && num !== 0) return 'N/A'; return num.toLocaleString();`. -/
def formatNumber (num : JSValue) : String :=
  if !(truthy num) && !(strictEqZero num) then "N/A"
  else jsToLocaleString num

/-- The record literal returned by `flattenCountryFields` for invalid input:
every string field `'N/A'`, `flagUrl` the empty string. -/
def fullyAbsentRecord : JSValue :=
  .obj [("name", .str "N/A"), ("region", .str "N/A"), ("capital", .str "N/A"),
        ("languages", .str "N/A"), ("population", .str "N/A"),
        ("area", .str "N/A"), ("flagUrl", .str "")]

/-- The population/area rule of `flattenCountryFields`:
`(x !== undefined && x !== null) ? x : 'N/A'`. -/
def keepOrNA : JSValue → JSValue
  | .undefined => .str "N/A"
  | .null => .str "N/A"
  | v => v

/-- The `name` extraction expression `country.name?.common`. -/
def nameExpr (country : JSValue) : JSValue :=
  optChain (getProp country "name") (fun v => getProp v "common")

/-- The `capital` extraction expression `country.capital?.[0]` (the index
`0` is the property key `"0"`). -/
def capitalExpr (country : JSValue) : JSValue :=
  optChain (getProp country "capital") (fun v => getProp v "0")

/-- The `flagUrl` extraction expression `country.flags?.png`. -/
def flagExpr (country : JSValue) : JSValue :=
  optChain (getProp country "flags") (fun v => getProp v "png")

/-- Function `flattenCountryFields(country)` from `countryUtils.js`: the
`!country || typeof country !== 'object'` guard returning the fully-absent
record, then the seven-field object literal with the per-field fallbacks. -/
def flattenCountryFields (country : JSValue) : JSValue :=
  if !(truthy country) || (typeof country != "object") then fullyAbsentRecord
  else
    .obj [("name", jsOr (nameExpr country) (.str "N/A")),
          ("region", jsOr (getProp country "region") (.str "N/A")),
          ("capital", jsOr (capitalExpr country) (.str "N/A")),
          ("languages", .str (formatLanguages (getProp country "languages"))),
          ("population", keepOrNA (getProp country "population")),
          ("area", keepOrNA (getProp country "area")),
          ("flagUrl", jsOr (flagExpr country) (.str ""))]

/-- The check `Array.isArray(v)`. -/
def isJSArray : JSValue → Bool
  | .arr _ => true
  | _ => false

/-- Function `flattenCountriesArray(countries)` from `countryUtils.js`:
`if (!Array.isArray(countries)) return []; return countries.map(...)`. -/
def flattenCountriesArray (countries : JSValue) : JSValue :=
  match countries with
  | .arr xs => .arr (xs.map flattenCountryFields)
  | _ => .arr []

/-!
## Throwing semantics

The pure definitions above model every partial JavaScript operation with a
total default. To prove the never-raises claim honestly, the same code is
re-translated here with each operation that can throw a `TypeError`
(property access, `Object.values`, `.toLocaleString()`, `.map`) returning
`Except String`, propagated exactly as JavaScript would propagate the
exception. The theorems then show each entry point always returns `.ok`.
-/

/-- Property access with JavaScript's throwing behaviour: reading any
property of `undefined` or `null` raises a `TypeError`. -/
def getPropE (v : JSValue) (k : String) : Except String JSValue :=
  match v with
  | .undefined => .error "TypeError: cannot read properties of undefined"
  | .null => .error "TypeError: cannot read properties of null"
  | v => .ok (getProp v k)

/-- Optional chaining over the throwing access: `undefined`/`null`
short-circuit to `undefined` instead of raising. -/
def optChainE (v : JSValue) (f : JSValue → Except String JSValue) :
    Except String JSValue :=
  match v with
  | .undefined => .ok .undefined
  | .null => .ok .undefined
  | v => f v

/-- The call `Object.values(v)` with its throwing behaviour on `undefined`/`null`. -/
def objectValuesE : JSValue → Except String (List JSValue)
  | .undefined => .error "TypeError: argument of Object.values is undefined"
  | .null => .error "TypeError: argument of Object.values is null"
  | v => .ok (objectValues v)

/-- The call `v.toLocaleString()` with its throwing behaviour on `undefined`/`null`. -/
def jsToLocaleStringE : JSValue → Except String String
  | .undefined => .error "TypeError: toLocaleString called on undefined"
  | .null => .error "TypeError: toLocaleString called on null"
  | v => .ok (jsToLocaleString v)

/-- Function `formatLanguages` with exception propagation. -/
def formatLanguagesE (languages : JSValue) : Except String String :=
  if !(truthy languages) || (typeof languages != "object") then .ok "N/A"
  else do
    let languageList ← objectValuesE languages
    if languageList.length > 0 then .ok (jsJoinList ", " languageList)
    else .ok "N/A"

/-- Function `formatNumber` with exception propagation. -/
def formatNumberE (num : JSValue) : Except String String :=
  if !(truthy num) && !(strictEqZero num) then .ok "N/A"
  else jsToLocaleStringE num

/-- Function `flattenCountryFields` with exception propagation: every property
access of the source is performed in order through `getPropE`. -/
def flattenCountryFieldsE (country : JSValue) : Except String JSValue :=
  if !(truthy country) || (typeof country != "object") then
    .ok fullyAbsentRecord
  else do
    let nameObj ← getPropE country "name"
    let nameV ← optChainE nameObj (fun v => getPropE v "common")
    let regionV ← getPropE country "region"
    let capitalArr ← getPropE country "capital"
    let capitalV ← optChainE capitalArr (fun v => getPropE v "0")
    let languagesV ← getPropE country "languages"
    let languagesS ← formatLanguagesE languagesV
    let populationV ← getPropE country "population"
    let areaV ← getPropE country "area"
    let flagsObj ← getPropE country "flags"
    let flagV ← optChainE flagsObj (fun v => getPropE v "png")
    .ok (.obj [("name", jsOr nameV (.str "N/A")),
               ("region", jsOr regionV (.str "N/A")),
               ("capital", jsOr capitalV (.str "N/A")),
               ("languages", .str languagesS),
               ("population", keepOrNA populationV),
               ("area", keepOrNA areaV),
               ("flagUrl", jsOr flagV (.str ""))])

/-- The call `countries.map(country => flattenCountryFields(country))` with
exception propagation: a raising callback aborts the whole `map`. -/
def flattenMapE : List JSValue → Except String (List JSValue)
  | [] => .ok []
  | x :: xs => do
    let r ← flattenCountryFieldsE x
    let rs ← flattenMapE xs
    .ok (r :: rs)

/-- Function `flattenCountriesArray` with exception propagation. -/
def flattenCountriesArrayE (countries : JSValue) : Except String JSValue :=
  match countries with
  | .arr xs => do
    let rs ← flattenMapE xs
    .ok (.arr rs)
  | _ => .ok (.arr [])

/-!
## Predicates used to state the claims
-/

/-- A non-null structured value: an array or a plain object — exactly the
inputs that pass the `!country || typeof country !== 'object'` guard. -/
def isStructured : JSValue → Bool
  | .arr _ => true
  | .obj _ => true
  | _ => false

/-- Is the value a string? -/
def isString : JSValue → Bool
  | .str _ => true
  | _ => false

/-- Is the value a number in the JavaScript sense (`typeof v === "number"`,
so `NaN` counts)? -/
def isNumber : JSValue → Bool
  | .num _ => true
  | .nan => true
  | _ => false

/-- The value is a string whenever it is truthy (the typing discipline the
documented `NestedCountryRecord` shape guarantees for its string fields). -/
def StringWhenTruthy (v : JSValue) : Prop :=
  truthy v = true → isString v = true

/-- Joining a list of plain strings with a separator, stated directly from
the specification's words for comparison with the code's `join`. -/
def joinStrings (sep : String) : List String → String
  | [] => ""
  | [x] => x
  | x :: y :: xs => x ++ sep ++ joinStrings sep (y :: xs)

/-- The first character of a string as a one-character string (the value of
the JavaScript expression `s[0]` on a non-empty string `s`), stated from
the claim's words for comparison with the code's extraction. -/
def firstCharString (s : String) : String :=
  match s.toList with
  | [] => ""
  | c :: _ => c.toString

/-- The France record used as the running example in the source and spec. -/
def franceRecord : JSValue :=
  .obj [("name", .obj [("common", .str "France")]),
        ("region", .str "Europe"), ("capital", .arr [.str "Paris"]),
        ("languages", .obj [("fra", .str "French")]),
        ("population", .num 67391582), ("area", .num 551695),
        ("flags", .obj [("png", .str "https://flagcdn.com/w320/fr.png")])]

/-!
## Sanity checks: the two end-to-end scenarios of the specification
-/

example : flattenCountryFields franceRecord =
    .obj [("name", .str "France"), ("region", .str "Europe"),
          ("capital", .str "Paris"), ("languages", .str "French"),
          ("population", .num 67391582), ("area", .num 551695),
          ("flagUrl", .str "https://flagcdn.com/w320/fr.png")] := rfl

example : flattenCountryFields (.obj [("name", .obj [("common", .str "Antarctica")]),
    ("area", .num 14000000), ("flags", .obj [("svg", .str "https://flagcdn.com/aq.svg")])]) =
  .obj [("name", .str "Antarctica"), ("region", .str "N/A"),
        ("capital", .str "N/A"), ("languages", .str "N/A"),
        ("population", .str "N/A"), ("area", .num 14000000),
        ("flagUrl", .str "")] := rfl

example : formatNumber (.num 1234567) = "1,234,567" := rfl

example : formatNumber (.num 0) = "0" := rfl

example : flattenCountryFields .null = fullyAbsentRecord := rfl

/-!
## Helper lemmas
-/

/-- On every non-structured value the guard condition of
`flattenCountryFields` evaluates to `true`. -/
theorem guard_eval_true (v : JSValue) (h : isStructured v = false) :
    (!(truthy v) || (typeof v != "object")) = true := by
  cases v with
  | undefined => rfl
  | null => rfl
  | nan => rfl
  | bool b => cases b <;> rfl
  | num n => exact Bool.or_true _
  | str s => exact Bool.or_true _
  | arr xs => simp [isStructured] at h
  | obj fields => simp [isStructured] at h

/-- Non-structured input takes the validation branch. -/
theorem flatten_malformed (v : JSValue) (h : isStructured v = false) :
    flattenCountryFields v = fullyAbsentRecord := by
  unfold flattenCountryFields
  rw [guard_eval_true v h]
  rfl

/-- Structured input takes the extraction branch: the result is the
seven-field object built from the per-field expressions. -/
theorem flatten_structured (v : JSValue) (h : isStructured v = true) :
    flattenCountryFields v =
      .obj [("name", jsOr (nameExpr v) (.str "N/A")),
            ("region", jsOr (getProp v "region") (.str "N/A")),
            ("capital", jsOr (capitalExpr v) (.str "N/A")),
            ("languages", .str (formatLanguages (getProp v "languages"))),
            ("population", keepOrNA (getProp v "population")),
            ("area", keepOrNA (getProp v "area")),
            ("flagUrl", jsOr (flagExpr v) (.str ""))] := by
  cases v <;> first | rfl | simp [isStructured] at h

theorem flat_get_name (v : JSValue) (h : isStructured v = true) :
    getProp (flattenCountryFields v) "name" = jsOr (nameExpr v) (.str "N/A") := by
  rw [flatten_structured v h]; rfl

theorem flat_get_region (v : JSValue) (h : isStructured v = true) :
    getProp (flattenCountryFields v) "region" =
      jsOr (getProp v "region") (.str "N/A") := by
  rw [flatten_structured v h]; rfl

theorem flat_get_capital (v : JSValue) (h : isStructured v = true) :
    getProp (flattenCountryFields v) "capital" =
      jsOr (capitalExpr v) (.str "N/A") := by
  rw [flatten_structured v h]; rfl

theorem flat_get_languages (v : JSValue) (h : isStructured v = true) :
    getProp (flattenCountryFields v) "languages" =
      .str (formatLanguages (getProp v "languages")) := by
  rw [flatten_structured v h]; rfl

theorem flat_get_population (v : JSValue) (h : isStructured v = true) :
    getProp (flattenCountryFields v) "population" =
      keepOrNA (getProp v "population") := by
  rw [flatten_structured v h]; rfl

theorem flat_get_area (v : JSValue) (h : isStructured v = true) :
    getProp (flattenCountryFields v) "area" =
      keepOrNA (getProp v "area") := by
  rw [flatten_structured v h]; rfl

theorem flat_get_flagUrl (v : JSValue) (h : isStructured v = true) :
    getProp (flattenCountryFields v) "flagUrl" =
      jsOr (flagExpr v) (.str "") := by
  rw [flatten_structured v h]; rfl

theorem jsOr_of_truthy (a b : JSValue) (h : truthy a = true) : jsOr a b = a := by
  simp [jsOr, h]

theorem jsOr_of_falsy (a b : JSValue) (h : truthy a = false) : jsOr a b = b := by
  simp [jsOr, h]

theorem isNumber_keepOrNA (p : JSValue) : isNumber (keepOrNA p) = isNumber p := by
  cases p <;> rfl

/-!
## Claim theorems
-/

/-- Claim C1: for every input that is not a non-null structured value
(`null`, `undefined`, booleans, numbers including `NaN`, strings),
`flattenCountryFields` returns the fully-absent record: every string field
`"N/A"`, `population`/`area` `"N/A"`, and `flagUrl` the empty string. -/
theorem flattenCountryFields_malformed_input (v : JSValue)
    (h : isStructured v = false) :
    flattenCountryFields v = fullyAbsentRecord :=
  flatten_malformed v h

theorem flattenCountryFields_malformed_input_witness :
    flattenCountryFields (JSValue.str "not a record") = fullyAbsentRecord :=
  flattenCountryFields_malformed_input (JSValue.str "not a record") rfl

/-- Claim C2: on every structured record the `population` and `area` fields
follow the `keepOrNA` rule taken verbatim from the source: a source value
that is neither `undefined` nor `null` is passed through unchanged (type
preserved, including `0` and negative numbers), otherwise the output is the
string `"N/A"`. -/
theorem flattenCountryFields_population_area_rule (c : JSValue)
    (h : isStructured c = true) :
    getProp (flattenCountryFields c) "population" =
        keepOrNA (getProp c "population") ∧
    getProp (flattenCountryFields c) "area" = keepOrNA (getProp c "area") ∧
    (∀ p : JSValue, p ≠ .undefined → p ≠ .null → keepOrNA p = p) ∧
    keepOrNA .undefined = .str "N/A" ∧ keepOrNA .null = .str "N/A" := by
  refine ⟨flat_get_population c h, flat_get_area c h, ?_, rfl, rfl⟩
  intro p h1 h2
  cases p <;> first | rfl | exact absurd rfl h1 | exact absurd rfl h2

theorem flattenCountryFields_population_area_rule_witness :
    getProp (flattenCountryFields (.obj [("population", .num 0),
        ("area", .num (-7))])) "population" = .num 0 ∧
    getProp (flattenCountryFields (.obj [("population", .num 0),
        ("area", .num (-7))])) "area" = .num (-7) := by
  have h := flattenCountryFields_population_area_rule
    (.obj [("population", .num 0), ("area", .num (-7))]) rfl
  exact ⟨h.1.trans rfl, h.2.1.trans rfl⟩

theorem isString_jsOr_of_swt (a : JSValue) (s : String)
    (h : StringWhenTruthy a) : isString (jsOr a (.str s)) = true := by
  cases ht : truthy a with
  | false => rw [jsOr_of_falsy _ _ ht]; rfl
  | true => rw [jsOr_of_truthy _ _ ht]; exact h ht

/-- Claim C3 (amended): for every input the numeric-type half of the
invariant holds unconditionally (`population`/`area` are numbers exactly
when the source value is), `languages` is always a string, and `flagUrl`'s
absence sentinel is the empty string; the remaining string fields are
strings provided each extracted source value is a string whenever truthy,
as the documented record shape guarantees — a truthy non-string source
value is passed through unchanged, so the unconditional claim fails. -/
theorem flattenCountryFields_type_invariant (c : JSValue) :
    isNumber (getProp (flattenCountryFields c) "population") =
      isNumber (getProp c "population") ∧
    isNumber (getProp (flattenCountryFields c) "area") =
      isNumber (getProp c "area") ∧
    isString (getProp (flattenCountryFields c) "languages") = true ∧
    (truthy (flagExpr c) = false →
      getProp (flattenCountryFields c) "flagUrl" = .str "") ∧
    (StringWhenTruthy (nameExpr c) →
      isString (getProp (flattenCountryFields c) "name") = true) ∧
    (StringWhenTruthy (getProp c "region") →
      isString (getProp (flattenCountryFields c) "region") = true) ∧
    (StringWhenTruthy (capitalExpr c) →
      isString (getProp (flattenCountryFields c) "capital") = true) ∧
    (StringWhenTruthy (flagExpr c) →
      isString (getProp (flattenCountryFields c) "flagUrl") = true) := by
  cases hc : isStructured c with
  | false =>
    rw [flatten_malformed c hc]
    cases c <;> first
      | exact ⟨rfl, rfl, rfl, fun _ => rfl, fun _ => rfl, fun _ => rfl,
               fun _ => rfl, fun _ => rfl⟩
      | simp [isStructured] at hc
  | true =>
    rw [flat_get_population c hc, flat_get_area c hc, flat_get_languages c hc,
        flat_get_flagUrl c hc, flat_get_name c hc, flat_get_region c hc,
        flat_get_capital c hc]
    exact ⟨isNumber_keepOrNA _, isNumber_keepOrNA _, rfl,
           fun hf => jsOr_of_falsy _ _ hf,
           fun h => isString_jsOr_of_swt _ _ h,
           fun h => isString_jsOr_of_swt _ _ h,
           fun h => isString_jsOr_of_swt _ _ h,
           fun h => isString_jsOr_of_swt _ _ h⟩

theorem flattenCountryFields_type_invariant_counterexample :
    getProp (flattenCountryFields (.obj [("region", .num 5)])) "region" =
      .num 5 ∧
    isString (getProp (flattenCountryFields (.obj [("region", .num 5)]))
      "region") = false :=
  ⟨rfl, rfl⟩

theorem flattenCountryFields_type_invariant_witness :
    isString (getProp (flattenCountryFields franceRecord) "name") = true ∧
    isString (getProp (flattenCountryFields franceRecord) "region") = true ∧
    isString (getProp (flattenCountryFields franceRecord) "capital") = true ∧
    isString (getProp (flattenCountryFields franceRecord) "flagUrl") = true ∧
    isNumber (getProp (flattenCountryFields franceRecord) "population") = true ∧
    getProp (flattenCountryFields (.obj [("name",
      .obj [("common", .str "Antarctica")]), ("area", .num 14000000)]))
      "flagUrl" = .str "" := by
  have h := flattenCountryFields_type_invariant franceRecord
  have h2 := flattenCountryFields_type_invariant
    (.obj [("name", .obj [("common", .str "Antarctica")]),
           ("area", .num 14000000)])
  exact ⟨h.2.2.2.2.1 (fun _ => rfl), h.2.2.2.2.2.1 (fun _ => rfl),
         h.2.2.2.2.2.2.1 (fun _ => rfl), h.2.2.2.2.2.2.2 (fun _ => rfl),
         h.1.trans rfl, h2.2.2.2.1 rfl⟩

/-- On every non-structured value the guard of `formatLanguages` fires. -/
theorem formatLanguages_malformed (v : JSValue) (h : isStructured v = false) :
    formatLanguages v = "N/A" := by
  unfold formatLanguages
  rw [guard_eval_true v h]
  rfl

/-- Claim C4: `formatLanguages` returns `"N/A"` on every non-structured
input and on the empty mapping, and on a non-empty mapping joins the
mapping's values with `", "` in iteration (insertion) order. -/
theorem formatLanguages_spec :
    (∀ v : JSValue, isStructured v = false → formatLanguages v = "N/A") ∧
    formatLanguages .null = "N/A" ∧
    formatLanguages (.obj []) = "N/A" ∧
    (∀ fields : List (String × JSValue), fields ≠ [] →
      formatLanguages (.obj fields) = jsJoinList ", " (fields.map Prod.snd)) ∧
    formatLanguages (.obj [("a", .str "X"), ("b", .str "Y")]) = "X, Y" := by
  refine ⟨formatLanguages_malformed, rfl, rfl, ?_, rfl⟩
  intro fields hne
  cases fields with
  | nil => exact absurd rfl hne
  | cons p ps =>
    show (if ((p :: ps).map Prod.snd).length > 0
        then jsJoinList ", " ((p :: ps).map Prod.snd) else "N/A") =
      jsJoinList ", " ((p :: ps).map Prod.snd)
    simp

theorem formatLanguages_spec_witness :
    formatLanguages (.num 3) = "N/A" ∧
    formatLanguages (.obj [("eng", .str "English"), ("fra", .str "French")]) =
      "English, French" := by
  have h := formatLanguages_spec
  exact ⟨h.1 (.num 3) rfl,
         (h.2.2.2.1 [("eng", .str "English"), ("fra", .str "French")]
           (by simp)).trans rfl⟩

/-- Claim C5: `formatNumber` returns `"N/A"` exactly on the falsy inputs
other than the number `0` (`null`, `undefined`, `NaN`, `""`), and renders
every number with default-locale thousands grouping; `0` formats as `"0"`
and `1234567` as `"1,234,567"`. -/
theorem formatNumber_spec :
    (∀ v : JSValue, truthy v = false → v ≠ .num 0 → formatNumber v = "N/A") ∧
    (∀ n : Int, formatNumber (.num n) = intToLocaleString n) ∧
    formatNumber .null = "N/A" ∧ formatNumber .undefined = "N/A" ∧
    formatNumber .nan = "N/A" ∧ formatNumber (.str "") = "N/A" ∧
    formatNumber (.num 0) = "0" ∧ formatNumber (.num 1234567) = "1,234,567" := by
  refine ⟨?_, ?_, rfl, rfl, rfl, rfl, rfl, rfl⟩
  · intro v hf hne
    cases v with
    | undefined => rfl
    | null => rfl
    | nan => rfl
    | bool b => cases b with
      | false => rfl
      | true => simp [truthy] at hf
    | num n =>
      have h0 : n = 0 := by simpa [truthy] using hf
      exact absurd (by rw [h0]) hne
    | str s =>
      have h0 : s = "" := by simpa [truthy] using hf
      rw [h0]; rfl
    | arr xs => simp [truthy] at hf
    | obj fields => simp [truthy] at hf
  · intro n
    cases hn : ((n == 0) : Bool) with
    | true =>
      simp [formatNumber, truthy, strictEqZero, bne, hn, jsToLocaleString]
    | false =>
      simp [formatNumber, truthy, strictEqZero, bne, hn, jsToLocaleString]

theorem formatNumber_spec_witness :
    formatNumber (.str "") = "N/A" ∧
    formatNumber (.num 42) = intToLocaleString 42 := by
  have h := formatNumber_spec
  exact ⟨h.1 (.str "") rfl (fun hh => JSValue.noConfusion hh), h.2.1 42⟩

/-- Claim C6: `flattenCountriesArray` returns the empty array on every
non-array input, and on an array maps `flattenCountryFields` over the
elements one-for-one, preserving order and length. -/
theorem flattenCountriesArray_spec :
    (∀ v : JSValue, isJSArray v = false → flattenCountriesArray v = .arr []) ∧
    (∀ xs : List JSValue,
      flattenCountriesArray (.arr xs) = .arr (xs.map flattenCountryFields) ∧
      (xs.map flattenCountryFields).length = xs.length ∧
      ∀ i : Nat, (xs.map flattenCountryFields).get? i =
        (xs.get? i).map flattenCountryFields) := by
  constructor
  · intro v h
    cases v <;> first | rfl | simp [isJSArray] at h
  · intro xs
    exact ⟨rfl, xs.length_map flattenCountryFields,
           fun i => List.get?_map flattenCountryFields xs i⟩

theorem flattenCountriesArray_spec_witness :
    flattenCountriesArray (.str "not a sequence") = .arr [] ∧
    flattenCountriesArray (.arr [.null, franceRecord]) =
      .arr [fullyAbsentRecord, flattenCountryFields franceRecord] := by
  have h := flattenCountriesArray_spec
  exact ⟨h.1 (.str "not a sequence") rfl,
         (h.2 [.null, franceRecord]).1.trans rfl⟩

/-- The flattener's output is always a structured (object) value. -/
theorem flatten_isStructured (v : JSValue) :
    isStructured (flattenCountryFields v) = true := by
  cases hv : isStructured v with
  | false => rw [flatten_malformed v hv]; rfl
  | true => rw [flatten_structured v hv]; rfl

/-- Evaluating `formatLanguages` on any string gives `"N/A"` (strings fail the
`typeof` check). -/
theorem formatLanguages_of_str (s : String) :
    formatLanguages (.str s) = "N/A" :=
  formatLanguages_malformed (.str s) rfl

/-- The `languages` field of the flattener's output is always a string. -/
theorem flatten_languages_is_str (v : JSValue) :
    ∃ s : String, getProp (flattenCountryFields v) "languages" = .str s := by
  cases hv : isStructured v with
  | false => exact ⟨"N/A", by rw [flatten_malformed v hv]; rfl⟩
  | true => exact ⟨formatLanguages (getProp v "languages"),
      flat_get_languages v hv⟩

/-- The flattener's output has no `flags` property. -/
theorem flatten_flags_absent (v : JSValue) :
    getProp (flattenCountryFields v) "flags" = .undefined := by
  cases hv : isStructured v with
  | false => rw [flatten_malformed v hv]; rfl
  | true => rw [flatten_structured v hv]; rfl

/-- Claim C7 counterexample: re-flattening the output of
`flattenCountryFields(null)` (the fully-absent record) does not yield the
fully-absent record — the `capital` field becomes `"N"`, the first
character of the string `"N/A"`, because `"N/A"` is a truthy string and
`'N/A'?.[0]` indexes into it. -/
theorem flatten_twice_counterexample :
    getProp (flattenCountryFields (flattenCountryFields JSValue.null))
      "capital" = .str "N" ∧
    getProp fullyAbsentRecord "capital" = .str "N/A" ∧
    flattenCountryFields (flattenCountryFields JSValue.null) ≠
      fullyAbsentRecord := by
  refine ⟨rfl, rfl, fun h => ?_⟩
  have h2 : JSValue.str "N" = JSValue.str "N/A" :=
    congrArg (fun r => getProp r "capital") h
  exact absurd (JSValue.str.inj h2) (by decide)

/-- Claim C7 (amended): the flattener's output is always a truthy object,
so re-flattening never takes the malformed-input branch; instead the
per-field rules run on the flat record, always giving `languages` `"N/A"`
and `flagUrl` `""`, and on the fully-absent record reproducing it except
for `capital`, which becomes `"N"` (first character of `"N/A"`). -/
theorem flatten_twice_behaviour :
    (∀ v : JSValue, truthy (flattenCountryFields v) = true ∧
      typeof (flattenCountryFields v) = "object") ∧
    (∀ v : JSValue,
      getProp (flattenCountryFields (flattenCountryFields v)) "languages" =
        .str "N/A" ∧
      getProp (flattenCountryFields (flattenCountryFields v)) "flagUrl" =
        .str "") ∧
    flattenCountryFields fullyAbsentRecord =
      .obj [("name", .str "N/A"), ("region", .str "N/A"),
            ("capital", .str "N"), ("languages", .str "N/A"),
            ("population", .str "N/A"), ("area", .str "N/A"),
            ("flagUrl", .str "")] := by
  refine ⟨?_, ?_, rfl⟩
  · intro v
    cases hv : isStructured v with
    | false => rw [flatten_malformed v hv]; exact ⟨rfl, rfl⟩
    | true => rw [flatten_structured v hv]; exact ⟨rfl, rfl⟩
  · intro v
    have hr : isStructured (flattenCountryFields v) = true :=
      flatten_isStructured v
    constructor
    · rw [flat_get_languages _ hr]
      obtain ⟨s, hs⟩ := flatten_languages_is_str v
      rw [hs, formatLanguages_of_str]
    · rw [flat_get_flagUrl _ hr]
      unfold flagExpr
      rw [flatten_flags_absent v]
      rfl

theorem Except_ok_bind {ε α β : Type} (a : α) (f : α → Except ε β) :
    (Except.ok a >>= f : Except ε β) = f a := rfl

/-- An optional chain whose continuation is a property read never raises:
the nullish cases short-circuit and every other value admits the read. -/
theorem optChainE_getProp (n : JSValue) (k : String) :
    optChainE n (fun x => getPropE x k) =
      .ok (optChain n (fun x => getProp x k)) := by
  cases n <;> rfl

theorem getPropE_of_obj (fields : List (String × JSValue)) (k : String) :
    getPropE (.obj fields) k = .ok (getProp (.obj fields) k) := rfl

theorem getPropE_of_arr (xs : List JSValue) (k : String) :
    getPropE (.arr xs) k = .ok (getProp (.arr xs) k) := rfl

/-- Function `formatLanguagesE` always succeeds, with the pure result. -/
theorem formatLanguagesE_ok (v : JSValue) :
    formatLanguagesE v = .ok (formatLanguages v) := by
  cases hv : isStructured v with
  | false =>
    unfold formatLanguagesE formatLanguages
    rw [guard_eval_true v hv]
    rfl
  | true =>
    cases v <;>
      (unfold formatLanguagesE formatLanguages
       simp [objectValuesE, objectValues, apply_ite Except.ok, truthy,
             typeof, Except_ok_bind])

/-- Function `formatNumberE` always succeeds, with the pure result. -/
theorem formatNumberE_ok (v : JSValue) :
    formatNumberE v = .ok (formatNumber v) := by
  cases v with
  | undefined => rfl
  | null => rfl
  | nan => rfl
  | bool b => cases b <;> rfl
  | num n =>
    cases hn : ((n == 0) : Bool) <;>
      simp [formatNumberE, formatNumber, truthy, strictEqZero, bne, hn,
            jsToLocaleStringE, jsToLocaleString]
  | str s =>
    cases hs : ((s == "") : Bool) <;>
      simp [formatNumberE, formatNumber, truthy, strictEqZero, bne, hs,
            jsToLocaleStringE, jsToLocaleString, jsValueToString]
  | arr xs => rfl
  | obj fields => rfl

/-- Function `flattenCountryFieldsE` always succeeds, with the pure result. -/
theorem flattenCountryFieldsE_ok (v : JSValue) :
    flattenCountryFieldsE v = .ok (flattenCountryFields v) := by
  cases hv : isStructured v with
  | false =>
    unfold flattenCountryFieldsE flattenCountryFields
    rw [guard_eval_true v hv]
    rfl
  | true =>
    cases v <;> first
      | (unfold flattenCountryFieldsE flattenCountryFields
         simp only [getPropE_of_obj, getPropE_of_arr, Except_ok_bind,
                    optChainE_getProp, formatLanguagesE_ok, nameExpr,
                    capitalExpr, flagExpr]
         rfl)
      | simp [isStructured] at hv

/-- Every element of a batch flatten succeeds, so the monadic `map`
succeeds with the pure `map`. -/
theorem flattenMapE_ok (xs : List JSValue) :
    flattenMapE xs = .ok (xs.map flattenCountryFields) := by
  induction xs with
  | nil => rfl
  | cons x t ih =>
    unfold flattenMapE
    rw [flattenCountryFieldsE_ok x, Except_ok_bind, ih, Except_ok_bind]
    rfl

/-- Function `flattenCountriesArrayE` always succeeds, with the pure result. -/
theorem flattenCountriesArrayE_ok (v : JSValue) :
    flattenCountriesArrayE v = .ok (flattenCountriesArray v) := by
  cases v <;> try rfl
  case arr xs =>
    show (do
        let rs ← flattenMapE xs
        Except.ok (JSValue.arr rs)) =
      Except.ok (JSValue.arr (xs.map flattenCountryFields))
    rw [flattenMapE_ok xs, Except_ok_bind]

/-- Claim C8: all four entry points are total and never raise — under the
throwing semantics, where every JavaScript operation that can throw a
`TypeError` is propagated, each function returns `.ok` of its pure result
on every input (including `null`, `undefined`, non-objects and
non-arrays). -/
theorem never_raises (v : JSValue) :
    flattenCountryFieldsE v = .ok (flattenCountryFields v) ∧
    formatLanguagesE v = .ok (formatLanguages v) ∧
    formatNumberE v = .ok (formatNumber v) ∧
    flattenCountriesArrayE v = .ok (flattenCountriesArray v) :=
  ⟨flattenCountryFieldsE_ok v, formatLanguagesE_ok v, formatNumberE_ok v,
   flattenCountriesArrayE_ok v⟩

theorem firstCharString_length (s : String) (h : s ≠ "") :
    (firstCharString s).length = 1 := by
  cases s with
  | mk data =>
    cases data with
    | nil => exact absurd rfl h
    | cons a b => rfl

/-- Claim C9: on a structured record whose `capital` field is a non-empty
string (not a sequence), the extraction `country.capital?.[0]` indexes the
string at position 0, so the output `capital` is the one-character string
holding the first character — never `"N/A"`, and never the whole string
when the string has at least two characters. -/
theorem capital_takes_first_char (c : JSValue) (s : String)
    (hstruct : isStructured c = true)
    (hcap : getProp c "capital" = .str s) (hne : s ≠ "") :
    getProp (flattenCountryFields c) "capital" = .str (firstCharString s) ∧
    getProp (flattenCountryFields c) "capital" ≠ .str "N/A" ∧
    (2 ≤ s.length → getProp (flattenCountryFields c) "capital" ≠ .str s) := by
  have hfc : getProp (flattenCountryFields c) "capital" =
      .str (firstCharString s) := by
    rw [flat_get_capital c hstruct]
    unfold capitalExpr
    rw [hcap]
    cases s with
    | mk data =>
      cases data with
      | nil => exact absurd rfl hne
      | cons ch rest => rfl
  refine ⟨hfc, ?_, ?_⟩
  · rw [hfc]
    intro h
    have h1 : firstCharString s = "N/A" := JSValue.str.inj h
    have h2 : (firstCharString s).length = 1 := firstCharString_length s hne
    rw [h1] at h2
    exact absurd h2 (by decide)
  · intro hlen h
    rw [hfc] at h
    have h1 : firstCharString s = s := JSValue.str.inj h
    have h2 := congrArg String.length h1
    rw [firstCharString_length s hne] at h2
    omega

theorem capital_takes_first_char_witness :
    getProp (flattenCountryFields (.obj [("capital", .str "Paris")]))
      "capital" = .str "P" := by
  have h := capital_takes_first_char (.obj [("capital", .str "Paris")])
    "Paris" rfl rfl (by decide)
  exact h.1.trans rfl

/-- The code's `join` agrees with plain string joining on lists of string
values. -/
theorem jsJoinList_map_str (sep : String) (ss : List String) :
    jsJoinList sep (ss.map JSValue.str) = joinStrings sep ss := by
  induction ss with
  | nil => rfl
  | cons x t ih =>
    cases t with
    | nil => rfl
    | cons y t2 =>
      show jsValueToString (.str x) ++ sep ++
          jsJoinList sep ((y :: t2).map JSValue.str) =
        x ++ sep ++ joinStrings sep (y :: t2)
      rw [ih]; rfl

/-- Claim C10: a non-empty array of strings is accepted by
`formatLanguages` (arrays pass the `typeof` check) and its elements are
joined with `", "`; the empty array yields `"N/A"`. -/
theorem formatLanguages_on_arrays (ss : List String) :
    (ss ≠ [] → formatLanguages (.arr (ss.map JSValue.str)) =
      joinStrings ", " ss) ∧
    formatLanguages (.arr ([] : List JSValue)) = "N/A" ∧
    formatLanguages (.arr [.str "English", .str "French"]) =
      "English, French" := by
  refine ⟨?_, rfl, rfl⟩
  intro hne
  cases ss with
  | nil => exact absurd rfl hne
  | cons x t =>
    show (if ((x :: t).map JSValue.str).length > 0
        then jsJoinList ", " ((x :: t).map JSValue.str) else "N/A") =
      joinStrings ", " (x :: t)
    rw [if_pos (by simp)]
    exact jsJoinList_map_str ", " (x :: t)

theorem formatLanguages_on_arrays_witness :
    formatLanguages (.arr (["English", "French"].map JSValue.str)) =
      joinStrings ", " ["English", "French"] := by
  have h := formatLanguages_on_arrays ["English", "French"]
  exact h.1 (by simp)
